import Mathlib

/-!
Shallow embedding of `pymap3d/latitude.py`: conversions between geodetic
latitude and the auxiliary latitudes (geocentric, isometric, conformal,
rectifying, authalic, parametric), over the real numbers.  Isometric
latitude is unbounded (±∞ at the poles), so the isometric functions use
`EReal` for that value.
-/

open Real

noncomputable section

namespace Pymap3d

/-- Modelled from the spec: the external `Ellipsoid` entity (its source,
`ellipsoid.py`, is not part of this repository snapshot).  It supplies two
derived scalar parameters read by the conversions: the first eccentricity
`e` (dimensionless, `0 ≤ e < 1`) and the third flattening `n`
(dimensionless, `|n| < 1`).  Immutable, value semantics. -/
structure Ellipsoid where
  eccentricity : ℝ
  thirdflattening : ℝ

/-- `math.radians`: degrees to radians. -/
def radians (x : ℝ) : ℝ := x * (π / 180)

/-- `math.degrees`: radians to degrees. -/
def degrees (x : ℝ) : ℝ := x * (180 / π)

/-- Modelled from the spec: the shared input sanitizer (its source,
`utils.py`, is not part of this repository snapshot).  It converts the raw
latitude to the internal radian representation when `deg` is true and
resolves the ellipsoid argument; no bounds validation is performed.  The
default-WGS84 resolution of a missing ellipsoid is outside the claims
(which quantify over every ellipsoid), so the ellipsoid is passed
explicitly here. -/
def sanitize (lat : ℝ) (ell : Ellipsoid) (deg : Bool) : ℝ × Ellipsoid :=
  (if deg then radians lat else lat, ell)

/-- `math.atanh`: the inverse hyperbolic tangent,
`atanh x = log ((1 + x) / (1 - x)) / 2`. -/
def atanh (x : ℝ) : ℝ := Real.log ((1 + x) / (1 - x)) / 2

/-- `math.degrees` extended to the extended reals, per IEEE float
semantics: `degrees(±inf) = ±inf` (the conversion factor `180/π` is
positive). -/
def degreesE (x : EReal) : EReal :=
  if x = ⊤ then ⊤ else if x = ⊥ then ⊥ else ((degrees x.toReal : ℝ) : EReal)

/-- `math.radians` extended to the extended reals, per IEEE float
semantics: `radians(±inf) = ±inf` (the conversion factor `π/180` is
positive). -/
def radiansE (x : EReal) : EReal :=
  if x = ⊤ then ⊤ else if x = ⊥ then ⊥ else ((radians x.toReal : ℝ) : EReal)

/-- `math.exp` extended to the extended reals, per IEEE float semantics:
`exp(+inf) = +inf`, `exp(-inf) = 0`. -/
def expE (x : EReal) : EReal :=
  if x = ⊤ then ⊤ else if x = ⊥ then ((0 : ℝ) : EReal) else ((Real.exp x.toReal : ℝ) : EReal)

/-- `math.atan` extended to the extended reals, per IEEE float semantics:
`atan(±inf) = ±π/2`. -/
def arctanE (x : EReal) : ℝ :=
  if x = ⊤ then π / 2 else if x = ⊥ then -(π / 2) else Real.arctan x.toReal

/-- `geodetic2geocentric`:
`geocentric_lat = atan((1 - e**2) * tan(geodetic_lat))`. -/
def geodetic2geocentric (geodetic_lat : ℝ) (ell : Ellipsoid) (deg : Bool) : ℝ :=
  let s := sanitize geodetic_lat ell deg
  let geocentric_lat := Real.arctan ((1 - s.2.eccentricity ^ 2) * Real.tan s.1)
  if deg then degrees geocentric_lat else geocentric_lat

/-- `geocentric2geodetic`:
`geodetic_lat = atan(tan(geocentric_lat) / (1 - e**2))`. -/
def geocentric2geodetic (geocentric_lat : ℝ) (ell : Ellipsoid) (deg : Bool) : ℝ :=
  let s := sanitize geocentric_lat ell deg
  let geodetic_lat := Real.arctan (Real.tan s.1 / (1 - s.2.eccentricity ^ 2))
  if deg then degrees geodetic_lat else geodetic_lat

/-- `geodetic2isometric_point`: the pole guard returns `±inf` when the
sanitized latitude is within `1e-9` rad of `±π/2`; otherwise
`isometric_lat = asinh(tan(geodetic_lat)) - e * atanh(e * sin(geodetic_lat))`. -/
def geodetic2isometric_point (geodetic_lat : ℝ) (ell : Ellipsoid) (deg : Bool) : EReal :=
  let s := sanitize geodetic_lat ell deg
  let e := s.2.eccentricity
  let isometric_lat : EReal :=
    if |s.1 - π / 2| ≤ 1e-9 then ⊤
    else if |-s.1 - π / 2| ≤ 1e-9 then ⊥
    else ((Real.arsinh (Real.tan s.1) - e * atanh (e * Real.sin s.1) : ℝ) : EReal)
  if deg then degreesE isometric_lat else isometric_lat

/-- `geodetic2isometric`: elementwise dispatch of the point function; on a
scalar input it is exactly `geodetic2isometric_point`. -/
def geodetic2isometric (geodetic_lat : ℝ) (ell : Ellipsoid) (deg : Bool) : EReal :=
  geodetic2isometric_point geodetic_lat ell deg

/-- `conformal2geodetic`: four-term trigonometric series in the conformal
latitude with coefficients polynomial in the eccentricity up to `e⁸`. -/
def conformal2geodetic (conformal_lat : ℝ) (ell : Ellipsoid) (deg : Bool) : ℝ :=
  let s := sanitize conformal_lat ell deg
  let e := s.2.eccentricity
  let f1 := e ^ 2 / 2 + 5 * e ^ 4 / 24 + e ^ 6 / 12 + 13 * e ^ 8 / 360
  let f2 := 7 * e ^ 4 / 48 + 29 * e ^ 6 / 240 + 811 * e ^ 8 / 11520
  let f3 := 7 * e ^ 6 / 120 + 81 * e ^ 8 / 1120
  let f4 := 4279 * e ^ 8 / 161280
  let geodetic_lat :=
    s.1 + f1 * Real.sin (2 * s.1) + f2 * Real.sin (4 * s.1)
      + f3 * Real.sin (6 * s.1) + f4 * Real.sin (8 * s.1)
  if deg then degrees geodetic_lat else geodetic_lat

/-- `isometric2geodetic`: the only conversion that does not pass its input
through `sanitize`; it converts the isometric latitude to radians itself
when `deg`, forms `conformal_lat = 2*atan(exp(isometric_lat)) - π/2`
(always in radians), and delegates to `conformal2geodetic` with
`deg=False`. -/
def isometric2geodetic (isometric_lat : EReal) (ell : Ellipsoid) (deg : Bool) : ℝ :=
  let iso := if deg then radiansE isometric_lat else isometric_lat
  let conformal_lat := 2 * arctanE (expE iso) - π / 2
  let geodetic_lat := conformal2geodetic conformal_lat ell false
  if deg then degrees geodetic_lat else geodetic_lat

/-- `geodetic2conformal_point`: the source computes
`2*atan(sqrt((f4/f3)*((f1/f2)**e))) - pi/2` inside a
`try/except ZeroDivisionError` that substitutes `π/2`; in pure Python the
exception is raised exactly when `f3 = 0`, which is the guard used here. -/
def geodetic2conformal_point (geodetic_lat : ℝ) (ell : Ellipsoid) (deg : Bool) : ℝ :=
  let s := sanitize geodetic_lat ell deg
  let e := s.2.eccentricity
  let f1 := 1 - e * Real.sin s.1
  let f2 := 1 + e * Real.sin s.1
  let f3 := 1 - Real.sin s.1
  let f4 := 1 + Real.sin s.1
  let conformal_lat :=
    if f3 = 0 then π / 2
    else 2 * Real.arctan (Real.sqrt ((f4 / f3) * (f1 / f2) ^ e)) - π / 2
  if deg then degrees conformal_lat else conformal_lat

/-- `geodetic2conformal`: elementwise dispatch of the point function; on a
scalar input it is exactly `geodetic2conformal_point`. -/
def geodetic2conformal (geodetic_lat : ℝ) (ell : Ellipsoid) (deg : Bool) : ℝ :=
  geodetic2conformal_point geodetic_lat ell deg

/-- `geodetic2rectifying`: alternating four-term series in the third
flattening `n`. -/
def geodetic2rectifying (geodetic_lat : ℝ) (ell : Ellipsoid) (deg : Bool) : ℝ :=
  let s := sanitize geodetic_lat ell deg
  let n := s.2.thirdflattening
  let f1 := 3 * n / 2 - 9 * n ^ 3 / 16
  let f2 := 15 * n ^ 2 / 16 - 15 * n ^ 4 / 32
  let f3 := 35 * n ^ 3 / 48
  let f4 := 315 * n ^ 4 / 512
  let rectifying_lat :=
    s.1 - f1 * Real.sin (2 * s.1) + f2 * Real.sin (4 * s.1)
      - f3 * Real.sin (6 * s.1) + f4 * Real.sin (8 * s.1)
  if deg then degrees rectifying_lat else rectifying_lat

/-- `rectifying2geodetic`: all-added four-term series in the third
flattening `n`. -/
def rectifying2geodetic (rectifying_lat : ℝ) (ell : Ellipsoid) (deg : Bool) : ℝ :=
  let s := sanitize rectifying_lat ell deg
  let n := s.2.thirdflattening
  let f1 := 3 * n / 2 - 27 * n ^ 3 / 32
  let f2 := 21 * n ^ 2 / 16 - 55 * n ^ 4 / 32
  let f3 := 151 * n ^ 3 / 96
  let f4 := 1097 * n ^ 4 / 512
  let geodetic_lat :=
    s.1 + f1 * Real.sin (2 * s.1) + f2 * Real.sin (4 * s.1)
      + f3 * Real.sin (6 * s.1) + f4 * Real.sin (8 * s.1)
  if deg then degrees geodetic_lat else geodetic_lat

/-- `geodetic2authalic`: alternating three-term series in the
eccentricity. -/
def geodetic2authalic (geodetic_lat : ℝ) (ell : Ellipsoid) (deg : Bool) : ℝ :=
  let s := sanitize geodetic_lat ell deg
  let e := s.2.eccentricity
  let f1 := e ^ 2 / 3 + 31 * e ^ 4 / 180 + 59 * e ^ 6 / 560
  let f2 := 17 * e ^ 4 / 360 + 61 * e ^ 6 / 1260
  let f3 := 383 * e ^ 6 / 45360
  let authalic_lat :=
    s.1 - f1 * Real.sin (2 * s.1) + f2 * Real.sin (4 * s.1) - f3 * Real.sin (6 * s.1)
  if deg then degrees authalic_lat else authalic_lat

/-- `authalic2geodetic`: all-added three-term series in the
eccentricity. -/
def authalic2geodetic (authalic_lat : ℝ) (ell : Ellipsoid) (deg : Bool) : ℝ :=
  let s := sanitize authalic_lat ell deg
  let e := s.2.eccentricity
  let f1 := e ^ 2 / 3 + 31 * e ^ 4 / 180 + 517 * e ^ 6 / 5040
  let f2 := 23 * e ^ 4 / 360 + 251 * e ^ 6 / 3780
  let f3 := 761 * e ^ 6 / 45360
  let geodetic_lat :=
    s.1 + f1 * Real.sin (2 * s.1) + f2 * Real.sin (4 * s.1) + f3 * Real.sin (6 * s.1)
  if deg then degrees geodetic_lat else geodetic_lat

/-- `geodetic2parametric`:
`parametric_lat = atan(sqrt(1 - e**2) * tan(geodetic_lat))`. -/
def geodetic2parametric (geodetic_lat : ℝ) (ell : Ellipsoid) (deg : Bool) : ℝ :=
  let s := sanitize geodetic_lat ell deg
  let parametric_lat := Real.arctan (Real.sqrt (1 - s.2.eccentricity ^ 2) * Real.tan s.1)
  if deg then degrees parametric_lat else parametric_lat

/-- `parametric2geodetic`:
`geodetic_lat = atan(tan(parametric_lat) / sqrt(1 - e**2))`. -/
def parametric2geodetic (parametric_lat : ℝ) (ell : Ellipsoid) (deg : Bool) : ℝ :=
  let s := sanitize parametric_lat ell deg
  let geodetic_lat := Real.arctan (Real.tan s.1 / Real.sqrt (1 - s.2.eccentricity ^ 2))
  if deg then degrees geodetic_lat else geodetic_lat

/-- A concrete oblate test ellipsoid used by the witness theorems. -/
def testEll : Ellipsoid := ⟨1 / 10, 1 / 100⟩

/-! ### Helper lemmas -/

lemma radians_neg (x : ℝ) : radians (-x) = -radians x := by simp [radians]

lemma degrees_neg (x : ℝ) : degrees (-x) = -degrees x := by simp [degrees]

lemma radians_ninety : radians 90 = π / 2 := by
  unfold radians; ring

lemma radians_zero : radians 0 = 0 := by simp [radians]

lemma degrees_zero : degrees 0 = 0 := by simp [degrees]

lemma atanh_zero : atanh 0 = 0 := by simp [atanh]

lemma atanh_neg (x : ℝ) : atanh (-x) = -atanh x := by
  unfold atanh
  rw [show (1 + -x) / (1 - -x) = ((1 + x) / (1 - x))⁻¹ by
    rw [inv_div]; ring_nf, Real.log_inv]
  ring

lemma degreesE_top : degreesE ⊤ = ⊤ := by simp [degreesE]

lemma degreesE_bot : degreesE ⊥ = ⊥ := by simp [degreesE]

lemma degreesE_coe (x : ℝ) : degreesE ((x : ℝ) : EReal) = ((degrees x : ℝ) : EReal) := by
  simp [degreesE]

lemma degreesE_zero : degreesE 0 = 0 := by
  rw [← EReal.coe_zero, degreesE_coe, degrees_zero]

lemma tol_lt_pi_div_two : (1e-9 : ℝ) < π / 2 := by
  have h := Real.pi_gt_three
  norm_num
  linarith

/-- The two pole guards of `geodetic2isometric_point` are mutually
exclusive. -/
lemma isometric_guards_exclusive {φ : ℝ} (h : |φ - π / 2| ≤ 1e-9) :
    ¬ |-φ - π / 2| ≤ 1e-9 := by
  have hpi := Real.pi_gt_three
  rw [abs_le] at h ⊢
  intro h'
  norm_num at h h'
  linarith [h.1, h'.2]

/-! ### C1 -/

/-- C1 — `geodetic2isometric` with radian input returns `+∞` within `1e-9`
rad of `+π/2`, `-∞` within `1e-9` rad of `-π/2`, and otherwise
`asinh(tan φ) - e·atanh(e·sin φ)`; and `geodetic2isometric(90, deg) = +∞`,
`geodetic2isometric(-90, deg) = -∞`, `geodetic2isometric(0, deg) = 0`. -/
theorem C1_geodetic2isometric (ell : Ellipsoid)
    (he0 : 0 ≤ ell.eccentricity) (he1 : ell.eccentricity < 1) :
    (∀ φ : ℝ,
      (|φ - π / 2| ≤ 1e-9 → geodetic2isometric φ ell false = ⊤) ∧
      (|-φ - π / 2| ≤ 1e-9 → geodetic2isometric φ ell false = ⊥) ∧
      (¬ |φ - π / 2| ≤ 1e-9 → ¬ |-φ - π / 2| ≤ 1e-9 →
        geodetic2isometric φ ell false =
          ((Real.arsinh (Real.tan φ)
            - ell.eccentricity * atanh (ell.eccentricity * Real.sin φ) : ℝ) : EReal))) ∧
    geodetic2isometric 90 ell true = ⊤ ∧
    geodetic2isometric (-90) ell true = ⊥ ∧
    geodetic2isometric 0 ell true = ((0 : ℝ) : EReal) := by
  have hpi := Real.pi_gt_three
  refine ⟨fun φ => ⟨?_, ?_, ?_⟩, ?_, ?_, ?_⟩
  · intro h
    simp [geodetic2isometric, geodetic2isometric_point, sanitize, h]
  · intro h
    have h1 : ¬ |φ - π / 2| ≤ 1e-9 := by
      intro h1
      exact isometric_guards_exclusive h1 h
    simp [geodetic2isometric, geodetic2isometric_point, sanitize, h, h1]
  · intro h1 h2
    simp [geodetic2isometric, geodetic2isometric_point, sanitize, h1, h2]
  · have hr : radians 90 = π / 2 := radians_ninety
    have hg : |radians 90 - π / 2| ≤ 1e-9 := by
      rw [hr]; norm_num
    simp [geodetic2isometric, geodetic2isometric_point, sanitize, hg, degreesE_top]
  · have hr : radians (-90) = -(π / 2) := by rw [radians_neg, radians_ninety]
    have hg2 : |-radians (-90) - π / 2| ≤ 1e-9 := by
      rw [hr]; norm_num
    have hg1 : ¬ |radians (-90) - π / 2| ≤ 1e-9 := by
      rw [hr]
      rw [abs_le]
      intro hc
      norm_num at hc
      linarith [hc.2]
    simp [geodetic2isometric, geodetic2isometric_point, sanitize, hg1, hg2, degreesE_bot]
  · have hg : ¬ |π / 2| ≤ (1e-9 : ℝ) := by
      rw [abs_of_pos (by positivity : (0 : ℝ) < π / 2)]
      intro hc
      norm_num at hc
      linarith
    simp [geodetic2isometric, geodetic2isometric_point, sanitize, radians_zero, hg,
      atanh_zero, degreesE_coe, degrees_zero, degreesE_zero]

/-- C1 witness: the theorem applied to the concrete test ellipsoid. -/
theorem C1_witness :
    (0 : ℝ) ≤ testEll.eccentricity ∧ testEll.eccentricity < 1 ∧
    geodetic2isometric 90 testEll true = ⊤ ∧
    geodetic2isometric (-90) testEll true = ⊥ ∧
    geodetic2isometric 0 testEll true = ((0 : ℝ) : EReal) := by
  have h0 : (0 : ℝ) ≤ testEll.eccentricity := by norm_num [testEll]
  have h1 : testEll.eccentricity < 1 := by norm_num [testEll]
  have h := C1_geodetic2isometric testEll h0 h1
  exact ⟨h0, h1, h.2.1, h.2.2.1, h.2.2.2⟩

/-! ### C2 -/

lemma degrees_pi_div_two : degrees (π / 2) = 90 := by
  unfold degrees
  field_simp
  ring

/-- C2 — `geodetic2conformal` computes, per point,
`2*atan(sqrt((f4/f3)*((f1/f2)^e))) - π/2` from
`f1 = 1-e·sin φ, f2 = 1+e·sin φ, f3 = 1-sin φ, f4 = 1+sin φ`, and at the
`f3 = 0` singularity (in particular `φ = +π/2`) it returns exactly `+π/2`
(`90` degrees when `deg`) rather than propagating a division error. -/
theorem C2_geodetic2conformal (ell : Ellipsoid)
    (he0 : 0 ≤ ell.eccentricity) (he1 : ell.eccentricity < 1) :
    (∀ φ : ℝ, geodetic2conformal φ ell false =
      if 1 - Real.sin φ = 0 then π / 2
      else 2 * Real.arctan (Real.sqrt
        (((1 + Real.sin φ) / (1 - Real.sin φ))
          * ((1 - ell.eccentricity * Real.sin φ)
              / (1 + ell.eccentricity * Real.sin φ)) ^ ell.eccentricity)) - π / 2) ∧
    geodetic2conformal (π / 2) ell false = π / 2 ∧
    geodetic2conformal 90 ell true = 90 := by
  refine ⟨fun φ => rfl, ?_, ?_⟩
  · have h3 : 1 - Real.sin (π / 2) = 0 := by rw [Real.sin_pi_div_two]; ring
    simp [geodetic2conformal, geodetic2conformal_point, sanitize, h3]
  · have h3 : 1 - Real.sin (radians 90) = 0 := by
      rw [radians_ninety, Real.sin_pi_div_two]; ring
    simp [geodetic2conformal, geodetic2conformal_point, sanitize, h3, degrees_pi_div_two]

/-- C2 witness: the theorem applied to the concrete test ellipsoid. -/
theorem C2_witness :
    (0 : ℝ) ≤ testEll.eccentricity ∧ testEll.eccentricity < 1 ∧
    geodetic2conformal (π / 2) testEll false = π / 2 ∧
    geodetic2conformal 90 testEll true = 90 := by
  have h0 : (0 : ℝ) ≤ testEll.eccentricity := by norm_num [testEll]
  have h1 : testEll.eccentricity < 1 := by norm_num [testEll]
  have h := C2_geodetic2conformal testEll h0 h1
  exact ⟨h0, h1, h.2.1, h.2.2⟩

/-! ### C3 -/

/-- C3 — `conformal2geodetic` with radian input is the four-term series
`φc + f1·sin 2φc + f2·sin 4φc + f3·sin 6φc + f4·sin 8φc` with the exact
Snyder coefficients in the eccentricity up to `e⁸`. -/
theorem C3_conformal2geodetic (ell : Ellipsoid) (φc : ℝ) :
    conformal2geodetic φc ell false =
      φc
      + (ell.eccentricity ^ 2 / 2 + 5 * ell.eccentricity ^ 4 / 24
          + ell.eccentricity ^ 6 / 12 + 13 * ell.eccentricity ^ 8 / 360)
        * Real.sin (2 * φc)
      + (7 * ell.eccentricity ^ 4 / 48 + 29 * ell.eccentricity ^ 6 / 240
          + 811 * ell.eccentricity ^ 8 / 11520) * Real.sin (4 * φc)
      + (7 * ell.eccentricity ^ 6 / 120 + 81 * ell.eccentricity ^ 8 / 1120)
        * Real.sin (6 * φc)
      + (4279 * ell.eccentricity ^ 8 / 161280) * Real.sin (8 * φc) := rfl

/-! ### C5 -/

/-- C5 — `geodetic2rectifying` is the alternating-sign four-term series in
the third flattening `n` with coefficients `3n/2-9n³/16, 15n²/16-15n⁴/32,
35n³/48, 315n⁴/512`, and `rectifying2geodetic` is the all-added series
with coefficients `3n/2-27n³/32, 21n²/16-55n⁴/32, 151n³/96, 1097n⁴/512`. -/
theorem C5_rectifying_series (ell : Ellipsoid) (φ : ℝ) :
    geodetic2rectifying φ ell false =
      φ
      - (3 * ell.thirdflattening / 2 - 9 * ell.thirdflattening ^ 3 / 16) * Real.sin (2 * φ)
      + (15 * ell.thirdflattening ^ 2 / 16 - 15 * ell.thirdflattening ^ 4 / 32)
        * Real.sin (4 * φ)
      - (35 * ell.thirdflattening ^ 3 / 48) * Real.sin (6 * φ)
      + (315 * ell.thirdflattening ^ 4 / 512) * Real.sin (8 * φ) ∧
    rectifying2geodetic φ ell false =
      φ
      + (3 * ell.thirdflattening / 2 - 27 * ell.thirdflattening ^ 3 / 32) * Real.sin (2 * φ)
      + (21 * ell.thirdflattening ^ 2 / 16 - 55 * ell.thirdflattening ^ 4 / 32)
        * Real.sin (4 * φ)
      + (151 * ell.thirdflattening ^ 3 / 96) * Real.sin (6 * φ)
      + (1097 * ell.thirdflattening ^ 4 / 512) * Real.sin (8 * φ) :=
  ⟨rfl, rfl⟩

/-! ### C6 -/

/-- C6 — `geodetic2authalic` is the alternating-sign three-term series in
the eccentricity with coefficients `e²/3+31e⁴/180+59e⁶/560,
17e⁴/360+61e⁶/1260, 383e⁶/45360`, and `authalic2geodetic` is the all-added
series with coefficients `e²/3+31e⁴/180+517e⁶/5040, 23e⁴/360+251e⁶/3780,
761e⁶/45360`. -/
theorem C6_authalic_series (ell : Ellipsoid) (φ : ℝ) :
    geodetic2authalic φ ell false =
      φ
      - (ell.eccentricity ^ 2 / 3 + 31 * ell.eccentricity ^ 4 / 180
          + 59 * ell.eccentricity ^ 6 / 560) * Real.sin (2 * φ)
      + (17 * ell.eccentricity ^ 4 / 360 + 61 * ell.eccentricity ^ 6 / 1260)
        * Real.sin (4 * φ)
      - (383 * ell.eccentricity ^ 6 / 45360) * Real.sin (6 * φ) ∧
    authalic2geodetic φ ell false =
      φ
      + (ell.eccentricity ^ 2 / 3 + 31 * ell.eccentricity ^ 4 / 180
          + 517 * ell.eccentricity ^ 6 / 5040) * Real.sin (2 * φ)
      + (23 * ell.eccentricity ^ 4 / 360 + 251 * ell.eccentricity ^ 6 / 3780)
        * Real.sin (4 * φ)
      + (761 * ell.eccentricity ^ 6 / 45360) * Real.sin (6 * φ) :=
  ⟨rfl, rfl⟩

/-! ### C4 -/

lemma radiansE_top : radiansE ⊤ = ⊤ := by simp [radiansE]

lemma radiansE_bot : radiansE ⊥ = ⊥ := by simp [radiansE]

lemma radiansE_coe (x : ℝ) : radiansE ((x : ℝ) : EReal) = ((radians x : ℝ) : EReal) := by
  simp [radiansE]

lemma expE_top : expE ⊤ = ⊤ := by simp [expE]

lemma expE_bot : expE ⊥ = ((0 : ℝ) : EReal) := by simp [expE]

lemma expE_coe (x : ℝ) : expE ((x : ℝ) : EReal) = ((Real.exp x : ℝ) : EReal) := by
  simp [expE]

lemma arctanE_top : arctanE ⊤ = π / 2 := by simp [arctanE]

lemma arctanE_coe (x : ℝ) : arctanE ((x : ℝ) : EReal) = Real.arctan x := by
  simp [arctanE]

/-- C4 — `isometric2geodetic` converts its raw input to radians itself when
`deg` (it is the one function that skips the `sanitize` helper), always
forms `conformal_lat = 2·atan(exp(isometric_lat)) - π/2` in radians, and
returns `conformal2geodetic(conformal_lat, ell, deg=false)`, converted back
to degrees when `deg`. -/
theorem C4_isometric2geodetic_structure (ell : Ellipsoid) (iso : ℝ) :
    isometric2geodetic ((iso : ℝ) : EReal) ell false =
      conformal2geodetic (2 * Real.arctan (Real.exp iso) - π / 2) ell false ∧
    isometric2geodetic ((iso : ℝ) : EReal) ell true =
      degrees (conformal2geodetic
        (2 * Real.arctan (Real.exp (radians iso)) - π / 2) ell false) := by
  constructor
  · simp [isometric2geodetic, expE_coe, arctanE_coe]
  · simp [isometric2geodetic, radiansE_coe, expE_coe, arctanE_coe]

/-! ### C9 and C10: behaviour at the poles -/

lemma sin_eq_zero_of_int_mul_pi (n : ℤ) (a : ℝ) (h : a = n * π) : Real.sin a = 0 := by
  rw [h]
  exact Real.sin_int_mul_pi n

lemma conformal2geodetic_pole_pos (ell : Ellipsoid) :
    conformal2geodetic (π / 2) ell false = π / 2 := by
  have s2 : Real.sin (2 * (π / 2)) = 0 :=
    sin_eq_zero_of_int_mul_pi 1 _ (by push_cast; ring)
  have s4 : Real.sin (4 * (π / 2)) = 0 :=
    sin_eq_zero_of_int_mul_pi 2 _ (by push_cast; ring)
  have s6 : Real.sin (6 * (π / 2)) = 0 :=
    sin_eq_zero_of_int_mul_pi 3 _ (by push_cast; ring)
  have s8 : Real.sin (8 * (π / 2)) = 0 :=
    sin_eq_zero_of_int_mul_pi 4 _ (by push_cast; ring)
  simp [conformal2geodetic, sanitize, s2, s4, s6, s8]

lemma conformal2geodetic_pole_neg (ell : Ellipsoid) :
    conformal2geodetic (-(π / 2)) ell false = -(π / 2) := by
  have s2 : Real.sin (2 * (π / 2)) = 0 :=
    sin_eq_zero_of_int_mul_pi 1 _ (by push_cast; ring)
  have s4 : Real.sin (4 * (π / 2)) = 0 :=
    sin_eq_zero_of_int_mul_pi 2 _ (by push_cast; ring)
  have s6 : Real.sin (6 * (π / 2)) = 0 :=
    sin_eq_zero_of_int_mul_pi 3 _ (by push_cast; ring)
  have s8 : Real.sin (8 * (π / 2)) = 0 :=
    sin_eq_zero_of_int_mul_pi 4 _ (by push_cast; ring)
  simp [conformal2geodetic, sanitize, s2, s4, s6, s8]

/-- C9 — `isometric2geodetic` maps the pole singularity values back
exactly: `+∞ ↦ π/2` and `-∞ ↦ -π/2` in radians (`90°`/`-90°` when `deg`),
because `exp(+∞) = +∞` and `exp(-∞) = 0` give conformal latitudes of
exactly `±π/2`, at which every sine term of the inverse conformal series
vanishes. -/
theorem C9_isometric2geodetic_inf (ell : Ellipsoid)
    (he0 : 0 ≤ ell.eccentricity) (he1 : ell.eccentricity < 1) :
    isometric2geodetic ⊤ ell false = π / 2 ∧
    isometric2geodetic ⊥ ell false = -(π / 2) ∧
    isometric2geodetic ⊤ ell true = 90 ∧
    isometric2geodetic ⊥ ell true = -90 := by
  have htop : (2 : ℝ) * arctanE (expE ⊤) - π / 2 = π / 2 := by
    rw [expE_top, arctanE_top]; ring
  have hbot : (2 : ℝ) * arctanE (expE ⊥) - π / 2 = -(π / 2) := by
    rw [expE_bot, arctanE_coe, Real.arctan_zero]; ring
  have u1 : isometric2geodetic ⊤ ell false =
      conformal2geodetic (2 * arctanE (expE ⊤) - π / 2) ell false := rfl
  have u2 : isometric2geodetic ⊥ ell false =
      conformal2geodetic (2 * arctanE (expE ⊥) - π / 2) ell false := rfl
  have u3 : isometric2geodetic ⊤ ell true =
      degrees (conformal2geodetic
        (2 * arctanE (expE (radiansE ⊤)) - π / 2) ell false) := rfl
  have u4 : isometric2geodetic ⊥ ell true =
      degrees (conformal2geodetic
        (2 * arctanE (expE (radiansE ⊥)) - π / 2) ell false) := rfl
  refine ⟨?_, ?_, ?_, ?_⟩
  · rw [u1, htop, conformal2geodetic_pole_pos]
  · rw [u2, hbot, conformal2geodetic_pole_neg]
  · rw [u3, radiansE_top, htop, conformal2geodetic_pole_pos, degrees_pi_div_two]
  · rw [u4, radiansE_bot, hbot, conformal2geodetic_pole_neg, degrees_neg, degrees_pi_div_two]

/-- C9 witness: the theorem applied to the concrete test ellipsoid. -/
theorem C9_witness :
    (0 : ℝ) ≤ testEll.eccentricity ∧ testEll.eccentricity < 1 ∧
    isometric2geodetic ⊤ testEll false = π / 2 ∧
    isometric2geodetic ⊥ testEll false = -(π / 2) := by
  have h0 : (0 : ℝ) ≤ testEll.eccentricity := by norm_num [testEll]
  have h1 : testEll.eccentricity < 1 := by norm_num [testEll]
  have h := C9_isometric2geodetic_inf testEll h0 h1
  exact ⟨h0, h1, h.1, h.2.1⟩

/-- C10 — with radian input, `±π/2` are exact fixed points of every
series-based conversion: `geodetic2rectifying`, `rectifying2geodetic`,
`geodetic2authalic`, `authalic2geodetic` and `conformal2geodetic`, since
every series term is a multiple of `sin(2k·(±π/2)) = sin(±kπ) = 0`. -/
theorem C10_series_pole_fixed_points (ell : Ellipsoid) :
    geodetic2rectifying (π / 2) ell false = π / 2 ∧
    geodetic2rectifying (-(π / 2)) ell false = -(π / 2) ∧
    rectifying2geodetic (π / 2) ell false = π / 2 ∧
    rectifying2geodetic (-(π / 2)) ell false = -(π / 2) ∧
    geodetic2authalic (π / 2) ell false = π / 2 ∧
    geodetic2authalic (-(π / 2)) ell false = -(π / 2) ∧
    authalic2geodetic (π / 2) ell false = π / 2 ∧
    authalic2geodetic (-(π / 2)) ell false = -(π / 2) ∧
    conformal2geodetic (π / 2) ell false = π / 2 ∧
    conformal2geodetic (-(π / 2)) ell false = -(π / 2) := by
  have s2 : Real.sin (2 * (π / 2)) = 0 :=
    sin_eq_zero_of_int_mul_pi 1 _ (by push_cast; ring)
  have s4 : Real.sin (4 * (π / 2)) = 0 :=
    sin_eq_zero_of_int_mul_pi 2 _ (by push_cast; ring)
  have s6 : Real.sin (6 * (π / 2)) = 0 :=
    sin_eq_zero_of_int_mul_pi 3 _ (by push_cast; ring)
  have s8 : Real.sin (8 * (π / 2)) = 0 :=
    sin_eq_zero_of_int_mul_pi 4 _ (by push_cast; ring)
  have m2 : Real.sin (2 * -(π / 2)) = 0 :=
    sin_eq_zero_of_int_mul_pi (-1) _ (by push_cast; ring)
  have m4 : Real.sin (4 * -(π / 2)) = 0 :=
    sin_eq_zero_of_int_mul_pi (-2) _ (by push_cast; ring)
  have m6 : Real.sin (6 * -(π / 2)) = 0 :=
    sin_eq_zero_of_int_mul_pi (-3) _ (by push_cast; ring)
  have m8 : Real.sin (8 * -(π / 2)) = 0 :=
    sin_eq_zero_of_int_mul_pi (-4) _ (by push_cast; ring)
  refine ⟨?_, ?_, ?_, ?_, ?_, ?_, ?_, ?_,
    conformal2geodetic_pole_pos ell, conformal2geodetic_pole_neg ell⟩
  · simp [geodetic2rectifying, sanitize, s2, s4, s6, s8]
  · simp [geodetic2rectifying, sanitize, s2, s4, s6, s8, m2, m4, m6, m8]
  · simp [rectifying2geodetic, sanitize, s2, s4, s6, s8]
  · simp [rectifying2geodetic, sanitize, s2, s4, s6, s8, m2, m4, m6, m8]
  · simp [geodetic2authalic, sanitize, s2, s4, s6]
  · simp [geodetic2authalic, sanitize, s2, s4, s6, m2, m4, m6]
  · simp [authalic2geodetic, sanitize, s2, s4, s6]
  · simp [authalic2geodetic, sanitize, s2, s4, s6, m2, m4, m6]

/-! ### C8 -/

lemma degrees_radians (x : ℝ) : degrees (radians x) = x := by
  unfold degrees radians
  field_simp

lemma degrees_le_degrees {x y : ℝ} (h : x ≤ y) : degrees x ≤ degrees y := by
  unfold degrees
  have hc : (0 : ℝ) ≤ 180 / π := by positivity
  exact mul_le_mul_of_nonneg_right h hc

/-- C8 — for an oblate ellipsoid (`0 < e < 1`) and a geodetic latitude
strictly between 0° and 90°, the auxiliary latitudes are ordered
`geocentric ≤ parametric ≤ geodetic`. -/
theorem C8_latitude_ordering (ell : Ellipsoid)
    (he0 : 0 < ell.eccentricity) (he1 : ell.eccentricity < 1)
    (φ : ℝ) (h0 : 0 < φ) (h1 : φ < 90) :
    geodetic2geocentric φ ell true ≤ geodetic2parametric φ ell true ∧
    geodetic2parametric φ ell true ≤ φ := by
  have hπ : (0 : ℝ) < π / 180 := by positivity
  have hr0 : 0 < radians φ := by
    unfold radians
    exact mul_pos h0 hπ
  have hrlt : radians φ < π / 2 := by
    have h := mul_lt_mul_of_pos_right h1 hπ
    rw [← radians_ninety]
    unfold radians
    exact h
  have ht : 0 < Real.tan (radians φ) :=
    Real.tan_pos_of_pos_of_lt_pi_div_two hr0 hrlt
  have hc1 : 0 < 1 - ell.eccentricity ^ 2 := by nlinarith
  have hc1' : 1 - ell.eccentricity ^ 2 ≤ 1 := by nlinarith
  have hs0 : 0 ≤ Real.sqrt (1 - ell.eccentricity ^ 2) := Real.sqrt_nonneg _
  have hs1 : Real.sqrt (1 - ell.eccentricity ^ 2) ≤ 1 := Real.sqrt_le_one.mpr hc1'
  have hsq : 1 - ell.eccentricity ^ 2 ≤ Real.sqrt (1 - ell.eccentricity ^ 2) := by
    nlinarith [Real.sq_sqrt hc1.le]
  have step1 : Real.arctan ((1 - ell.eccentricity ^ 2) * Real.tan (radians φ)) ≤
      Real.arctan (Real.sqrt (1 - ell.eccentricity ^ 2) * Real.tan (radians φ)) :=
    Real.arctan_strictMono.monotone (by nlinarith)
  have step2 : Real.arctan (Real.sqrt (1 - ell.eccentricity ^ 2) * Real.tan (radians φ)) ≤
      radians φ := by
    have h := Real.arctan_strictMono.monotone
      (show Real.sqrt (1 - ell.eccentricity ^ 2) * Real.tan (radians φ) ≤
        Real.tan (radians φ) by nlinarith)
    rwa [Real.arctan_tan (by linarith) hrlt] at h
  constructor
  · exact degrees_le_degrees step1
  · have h := degrees_le_degrees step2
    rwa [degrees_radians] at h

/-- C8 witness: the theorem applied to the concrete test ellipsoid at
45 degrees. -/
theorem C8_witness :
    (0 : ℝ) < testEll.eccentricity ∧ testEll.eccentricity < 1 ∧
    (0 : ℝ) < 45 ∧ (45 : ℝ) < 90 ∧
    geodetic2geocentric 45 testEll true ≤ geodetic2parametric 45 testEll true ∧
    geodetic2parametric 45 testEll true ≤ 45 := by
  have h0 : (0 : ℝ) < testEll.eccentricity := by norm_num [testEll]
  have h1 : testEll.eccentricity < 1 := by norm_num [testEll]
  have ha : (0 : ℝ) < 45 := by norm_num
  have hb : (45 : ℝ) < 90 := by norm_num
  have h := C8_latitude_ordering testEll h0 h1 45 ha hb
  exact ⟨h0, h1, ha, hb, h.1, h.2⟩

/-! ### C7: oddness helpers -/

lemma degreesE_neg (x : EReal) : degreesE (-x) = -degreesE x := by
  induction x using EReal.rec with
  | h_bot => rw [EReal.neg_bot, degreesE_top, degreesE_bot, EReal.neg_bot]
  | h_real r => rw [← EReal.coe_neg, degreesE_coe, degreesE_coe, degrees_neg, EReal.coe_neg]
  | h_top => rw [EReal.neg_top, degreesE_bot, degreesE_top, EReal.neg_top]

lemma radiansE_neg (x : EReal) : radiansE (-x) = -radiansE x := by
  induction x using EReal.rec with
  | h_bot => rw [EReal.neg_bot, radiansE_top, radiansE_bot, EReal.neg_bot]
  | h_real r => rw [← EReal.coe_neg, radiansE_coe, radiansE_coe, radians_neg, EReal.coe_neg]
  | h_top => rw [EReal.neg_top, radiansE_bot, radiansE_top, EReal.neg_top]

lemma geodetic2isometric_point_rad_odd (ell : Ellipsoid) (x : ℝ) :
    geodetic2isometric_point (-x) ell false = -geodetic2isometric_point x ell false := by
  by_cases hA : |x - π / 2| ≤ 1e-9
  · have hB : ¬ |-x - π / 2| ≤ 1e-9 := isometric_guards_exclusive hA
    simp [geodetic2isometric_point, sanitize, hA, hB]
  · by_cases hB : |-x - π / 2| ≤ 1e-9
    · simp [geodetic2isometric_point, sanitize, hA, hB]
    · simp [geodetic2isometric_point, sanitize, hA, hB, Real.tan_neg, Real.arsinh_neg,
        Real.sin_neg, atanh_neg]
      norm_cast
      ring

lemma geodetic2isometric_point_deg (lat : ℝ) (ell : Ellipsoid) :
    geodetic2isometric_point lat ell true =
      degreesE (geodetic2isometric_point (radians lat) ell false) := rfl

lemma conformal_formula_odd (e s : ℝ) (he0 : 0 ≤ e) (he1 : e < 1)
    (hs1 : -1 ≤ s) (hs2 : s ≤ 1) :
    (if 1 - -s = 0 then π / 2
      else 2 * Real.arctan (Real.sqrt
        (((1 + -s) / (1 - -s)) * ((1 - e * -s) / (1 + e * -s)) ^ e)) - π / 2)
    = -(if 1 - s = 0 then π / 2
      else 2 * Real.arctan (Real.sqrt
        (((1 + s) / (1 - s)) * ((1 - e * s) / (1 + e * s)) ^ e)) - π / 2) := by
  rw [show (1 : ℝ) - -s = 1 + s by ring, show (1 : ℝ) + -s = 1 - s by ring,
    show (1 : ℝ) - e * -s = 1 + e * s by ring, show (1 : ℝ) + e * -s = 1 - e * s by ring]
  by_cases h1 : 1 - s = 0
  · have hs : s = 1 := by linarith
    subst hs
    rw [if_pos h1, if_neg (by norm_num : ¬(1 : ℝ) + 1 = 0)]
    norm_num
  · by_cases h2 : 1 + s = 0
    · have hs : s = -1 := by linarith
      subst hs
      rw [if_pos (by norm_num : (1 : ℝ) + -1 = 0), if_neg h1]
      norm_num
    · have hs1' : -1 < s := hs1.lt_of_ne (fun h => h2 (by rw [← h]; ring))
      have hs2' : s < 1 := hs2.lt_of_ne (fun h => h1 (by rw [h]; ring))
      have hd1 : 0 < 1 - s := by linarith
      have hd2 : 0 < 1 + s := by linarith
      have hn1 : 0 < 1 - e * s := by nlinarith
      have hn2 : 0 < 1 + e * s := by nlinarith
      rw [if_neg h2, if_neg h1]
      have hA : 0 < (1 + s) / (1 - s) := div_pos hd2 hd1
      have hB : 0 < (1 - e * s) / (1 + e * s) := div_pos hn1 hn2
      have hrw1 : (1 - s) / (1 + s) = ((1 + s) / (1 - s))⁻¹ := (inv_div _ _).symm
      have hrw2 : (1 + e * s) / (1 - e * s) = ((1 - e * s) / (1 + e * s))⁻¹ :=
        (inv_div _ _).symm
      rw [hrw1, hrw2, Real.inv_rpow hB.le, ← mul_inv, Real.sqrt_inv,
        Real.arctan_inv_of_pos
          (Real.sqrt_pos.mpr (mul_pos hA (Real.rpow_pos_of_pos hB e)))]
      ring

lemma geodetic2conformal_point_rad_odd (ell : Ellipsoid)
    (he0 : 0 ≤ ell.eccentricity) (he1 : ell.eccentricity < 1) (x : ℝ) :
    geodetic2conformal_point (-x) ell false = -geodetic2conformal_point x ell false := by
  have h := conformal_formula_odd ell.eccentricity (Real.sin x) he0 he1
    (Real.neg_one_le_sin x) (Real.sin_le_one x)
  simpa [geodetic2conformal_point, sanitize, Real.sin_neg] using h

lemma geodetic2conformal_point_deg (lat : ℝ) (ell : Ellipsoid) :
    geodetic2conformal_point lat ell true =
      degrees (geodetic2conformal_point (radians lat) ell false) := rfl

lemma conformal2geodetic_rad_odd (ell : Ellipsoid) (x : ℝ) :
    conformal2geodetic (-x) ell false = -conformal2geodetic x ell false := by
  simp only [conformal2geodetic, sanitize, Bool.false_eq_true, if_false, Real.sin_neg,
    mul_neg, neg_neg]
  ring

lemma arctanE_expE_neg (y : EReal) :
    2 * arctanE (expE (-y)) - π / 2 = -(2 * arctanE (expE y) - π / 2) := by
  induction y using EReal.rec with
  | h_bot =>
      rw [EReal.neg_bot, expE_top, arctanE_top, expE_bot, arctanE_coe, Real.arctan_zero]
      ring
  | h_real r =>
      rw [← EReal.coe_neg, expE_coe, expE_coe, arctanE_coe, arctanE_coe, Real.exp_neg,
        Real.arctan_inv_of_pos (Real.exp_pos r)]
      ring
  | h_top =>
      rw [EReal.neg_top, expE_bot, arctanE_coe, Real.arctan_zero, expE_top, arctanE_top]
      ring

/-- C7 — every one of the twelve conversion functions is odd,
`f(-φ) = -f(φ)`, for every ellipsoid of the data model (`0 ≤ e < 1`), in
both angle units; for the isometric forward conversion this includes the
pole branches, where `±∞` are exchanged consistently with oddness, and for
the isometric inverse the input ranges over the extended reals. -/
theorem C7_conversions_odd (ell : Ellipsoid)
    (he0 : 0 ≤ ell.eccentricity) (he1 : ell.eccentricity < 1)
    (deg : Bool) (φ : ℝ) :
    geodetic2geocentric (-φ) ell deg = -geodetic2geocentric φ ell deg ∧
    geocentric2geodetic (-φ) ell deg = -geocentric2geodetic φ ell deg ∧
    geodetic2isometric (-φ) ell deg = -geodetic2isometric φ ell deg ∧
    (∀ iso : EReal, isometric2geodetic (-iso) ell deg = -isometric2geodetic iso ell deg) ∧
    geodetic2conformal (-φ) ell deg = -geodetic2conformal φ ell deg ∧
    conformal2geodetic (-φ) ell deg = -conformal2geodetic φ ell deg ∧
    geodetic2rectifying (-φ) ell deg = -geodetic2rectifying φ ell deg ∧
    rectifying2geodetic (-φ) ell deg = -rectifying2geodetic φ ell deg ∧
    geodetic2authalic (-φ) ell deg = -geodetic2authalic φ ell deg ∧
    authalic2geodetic (-φ) ell deg = -authalic2geodetic φ ell deg ∧
    geodetic2parametric (-φ) ell deg = -geodetic2parametric φ ell deg ∧
    parametric2geodetic (-φ) ell deg = -parametric2geodetic φ ell deg := by
  refine ⟨?_, ?_, ?_, ?_, ?_, ?_, ?_, ?_, ?_, ?_, ?_, ?_⟩
  · cases deg <;>
      simp [geodetic2geocentric, sanitize, radians_neg, Real.tan_neg, Real.arctan_neg,
        degrees_neg]
  · cases deg <;>
      simp [geocentric2geodetic, sanitize, radians_neg, Real.tan_neg, neg_div,
        Real.arctan_neg, degrees_neg]
  · cases deg with
    | false => exact geodetic2isometric_point_rad_odd ell φ
    | true =>
      show geodetic2isometric_point (-φ) ell true = -geodetic2isometric_point φ ell true
      rw [geodetic2isometric_point_deg, geodetic2isometric_point_deg, radians_neg,
        geodetic2isometric_point_rad_odd, degreesE_neg]
  · intro iso
    cases deg with
    | false =>
      have u : ∀ z : EReal, isometric2geodetic z ell false =
          conformal2geodetic (2 * arctanE (expE z) - π / 2) ell false := fun z => rfl
      rw [u, u, arctanE_expE_neg, conformal2geodetic_rad_odd]
    | true =>
      have u : ∀ z : EReal, isometric2geodetic z ell true =
          degrees (conformal2geodetic (2 * arctanE (expE (radiansE z)) - π / 2) ell false) :=
        fun z => rfl
      rw [u, u, radiansE_neg, arctanE_expE_neg, conformal2geodetic_rad_odd, degrees_neg]
  · cases deg with
    | false => exact geodetic2conformal_point_rad_odd ell he0 he1 φ
    | true =>
      show geodetic2conformal_point (-φ) ell true = -geodetic2conformal_point φ ell true
      rw [geodetic2conformal_point_deg, geodetic2conformal_point_deg, radians_neg,
        geodetic2conformal_point_rad_odd ell he0 he1, degrees_neg]
  · cases deg with
    | false => exact conformal2geodetic_rad_odd ell φ
    | true =>
      have u : ∀ x : ℝ, conformal2geodetic x ell true =
          degrees (conformal2geodetic (radians x) ell false) := fun x => rfl
      rw [u, u, radians_neg, conformal2geodetic_rad_odd, degrees_neg]
  · cases deg <;>
      simp [geodetic2rectifying, sanitize, radians, degrees, Real.sin_neg] <;> ring
  · cases deg <;>
      simp [rectifying2geodetic, sanitize, radians, degrees, Real.sin_neg] <;> ring
  · cases deg <;>
      simp [geodetic2authalic, sanitize, radians, degrees, Real.sin_neg] <;> ring
  · cases deg <;>
      simp [authalic2geodetic, sanitize, radians, degrees, Real.sin_neg] <;> ring
  · cases deg <;>
      simp [geodetic2parametric, sanitize, radians_neg, Real.tan_neg, Real.arctan_neg,
        degrees_neg]
  · cases deg <;>
      simp [parametric2geodetic, sanitize, radians_neg, Real.tan_neg, neg_div,
        Real.arctan_neg, degrees_neg]

/-- C7 witness: the theorem applied to the concrete test ellipsoid at
one radian. -/
theorem C7_witness :
    (0 : ℝ) ≤ testEll.eccentricity ∧ testEll.eccentricity < 1 ∧
    geodetic2geocentric (-1) testEll false = -geodetic2geocentric 1 testEll false ∧
    geodetic2conformal (-1) testEll false = -geodetic2conformal 1 testEll false := by
  have h0 : (0 : ℝ) ≤ testEll.eccentricity := by norm_num [testEll]
  have h1 : testEll.eccentricity < 1 := by norm_num [testEll]
  have h := C7_conversions_odd testEll h0 h1 false 1
  exact ⟨h0, h1, h.1, h.2.2.2.2.1⟩

end Pymap3d

end
